import Mathlib

/-!
Verification of the trello-autopilot core (`src/core.ts`) against its
natural-language specification.

The TypeScript core is shallowly embedded: pure functions (`getPriority`,
`sortByPriority`, `filterByLabel`, `filterByRetry`, `buildPrompt`,
`generateReport`) become Lean functions over the same data shapes; the
stateful per-bug orchestrator `fixBug` becomes a pure function of the bug
plus an environment of external-collaborator behaviours (board gateway,
git operations, agent invoker, test runner), returning the `FixResult`
together with the ordered trace of external calls it issued.  Every
external operation that can reject in JavaScript is modelled as
`Except String`-valued; the test runner is total, matching both its
interface contract and the default implementation, which catches the
spawned process's errors and reports `passed = false` instead of throwing.
Wall-clock time (`Date.now()`) is not modelled; `durationMs` is frozen at 0.
-/

/-! ## Data model (src/trello.ts, src/core.ts) -/

/-- Label attached to a card (`TrelloLabel` in src/trello.ts). -/
structure TrelloLabel where
  id : String
  name : String
  color : String
  deriving Repr, DecidableEq

/-- A board card (`TrelloCard` in src/trello.ts). -/
structure TrelloCard where
  id : String
  name : String
  desc : String
  idList : String
  labels : List TrelloLabel
  url : String
  deriving Repr, DecidableEq

/-- A card comment (`TrelloComment` in src/trello.ts); `text` embeds
`data.text` and `authorFullName` embeds `memberCreator.fullName`. -/
structure TrelloComment where
  id : String
  text : String
  authorFullName : String
  date : String
  deriving Repr, DecidableEq

/-- A bug record: card plus its comments (`BugInfo` in src/core.ts). -/
structure BugInfo where
  card : TrelloCard
  comments : List TrelloComment
  deriving Repr, DecidableEq

/-- Outcome of one fix attempt (`FixResult` in src/core.ts).  Optional
TypeScript fields become `Option`, `none` standing for `undefined`. -/
structure FixResult where
  cardId : String
  cardName : String
  success : Bool
  summary : String
  error : Option String := none
  skipped : Option Bool := none
  skipReason : Option String := none
  branch : Option String := none
  diffSummary : Option String := none
  prUrl : Option String := none
  testOutput : Option String := none
  blameInfo : Option String := none
  durationMs : Option Nat := none
  deriving Repr, DecidableEq

/-- Run-level report (`Report` in src/core.ts). -/
structure Report where
  total : Nat
  fixed : Nat
  failed : Nat
  skipped : Nat
  durationMs : Nat
  results : List FixResult
  deriving Repr, DecidableEq

/-- JavaScript truthiness of an optional boolean field (`undefined` and
`false` are falsy). -/
def truthyB (b : Option Bool) : Bool := b.getD false

/-- JavaScript truthiness of an optional string (`undefined` and the empty
string are falsy). -/
def truthyS (s : Option String) : Bool :=
  match s with
  | none => false
  | some v => v ≠ ""

/-! ## Bug selection policy (src/core.ts lines 61-101) -/

/-- Priority order for labels; lower index = higher priority
(`PRIORITY_ORDER` in src/core.ts). -/
def PRIORITY_ORDER : List String := ["critical", "high", "medium", "low"]

/-- Priority index of a card: the first index of `PRIORITY_ORDER` whose
entry occurs among the card's lower-cased label names, else the list's
length (`getPriority` in src/core.ts). -/
def getPriority (card : TrelloCard) : Nat :=
  let labelNames := card.labels.map (fun l => l.name.toLower)
  match PRIORITY_ORDER.findIdx? (fun p => labelNames.contains p) with
  | some i => i
  | none => PRIORITY_ORDER.length

/-- Sort bugs by label priority (`sortByPriority` in src/core.ts).  The
source copies the array and calls `Array.prototype.sort`, which ECMAScript
requires to be stable, with comparator `getPriority(a) - getPriority(b)`;
this is embedded as a stable merge sort on the boolean relation
`getPriority a ≤ getPriority b`. -/
def sortByPriority (bugs : List BugInfo) : List BugInfo :=
  bugs.mergeSort (fun a b => getPriority a.card ≤ getPriority b.card)

/-- Filter bugs by label name, case-insensitively
(`filterByLabel` in src/core.ts). -/
def filterByLabel (bugs : List BugInfo) (label : String) : List BugInfo :=
  bugs.filter (fun b =>
    b.card.labels.any (fun l => l.name.toLower == label.toLower))

/-- Keep only bugs carrying a `fix-failed` or `needs-human` label
(`filterByRetry` in src/core.ts). -/
def filterByRetry (bugs : List BugInfo) : List BugInfo :=
  bugs.filter (fun b =>
    b.card.labels.any (fun l =>
      l.name.toLower == "fix-failed" || l.name.toLower == "needs-human"))

/-! ## Prompt builder (src/core.ts lines 124-137) -/

/-- JavaScript `Array.prototype.join(sep)`: empty list gives the empty
string, otherwise the parts separated by `sep`. -/
def joinSep (sep : String) (parts : List String) : String :=
  match parts with
  | [] => ""
  | p :: ps => ps.foldl (fun acc x => acc ++ sep ++ x) p

/-- Build the coding-agent prompt from a bug record
(`buildPrompt` in src/core.ts).  The `if` guards mirror JavaScript
truthiness: `desc` must be non-empty, `labels.length` and
`comments.length` non-zero. -/
def buildPrompt (bug : BugInfo) : String :=
  let parts := ["Fix this bug: " ++ bug.card.name]
  let parts := if bug.card.desc = "" then parts else
    parts ++ ["\nDescription:\n" ++ bug.card.desc]
  let parts := if bug.card.labels.length = 0 then parts else
    parts ++ ["\nLabels: " ++ joinSep ", " (bug.card.labels.map (fun l => l.name))]
  let parts := if bug.comments.length = 0 then parts else
    (parts ++ ["\nComments:"]) ++
      bug.comments.map (fun c => "- " ++ c.authorFullName ++ ": " ++ c.text)
  joinSep "\n" parts

/-! ## Report aggregation (src/core.ts lines 401-411) -/

/-- Fold per-bug results into a report (`generateReport` in src/core.ts).
`startTime`/`now` replace the two `Date.now()` readings. -/
def generateReport (results : List FixResult) (startTime now : Nat) : Report :=
  { total := results.length
    fixed := (results.filter (fun r => r.success)).length
    failed := (results.filter (fun r => !r.success && !truthyB r.skipped)).length
    skipped := (results.filter (fun r => truthyB r.skipped)).length
    durationMs := now - startTime
    results := results }

/-! ## Fix orchestrator (src/core.ts lines 139-399)

`fixBug` awaits a sequence of external operations.  The environment below
bundles the injectable collaborators exactly as the source consumes them:
the five `GitOps` methods, `invokeAgent` (prompt, repo, optional agent
command), `TestRunner.run`, and the four board-mutating `TrelloClient`
methods used by `fixBug`.  Every operation whose JavaScript counterpart
can reject is `Except String`-valued, the error being the thrown message;
`runTests` is total because the `TestRunner` contract (and the default
implementation, which catches the child process's failure) returns
`{ passed, output }` rather than throwing. -/

/-- Behaviour of the external collaborators during one `fixBug` call. -/
structure Env where
  createBranch : String → String → Except String Unit
  getDiff : String → Except String String
  commitAndPush : String → String → String → Except String Unit
  createPR : String → String → String → String → Except String String
  blame : String → String → Except String String
  invokeAgent : String → String → Option String → Except String String
  runTests : String → Option String → Bool × String
  moveCard : String → String → Except String Unit
  addComment : String → String → Except String Unit
  addLabel : String → String → String → Except String Unit
  removeLabel : String → String → String → Except String Unit

/-- One external call issued by the orchestrator, with its arguments.
A call is recorded whether or not the operation then fails. -/
inductive Call where
  | createBranch (repo branch : String)
  | getDiff (repo : String)
  | commitAndPush (repo message branch : String)
  | createPR (repo branch title body : String)
  | blame (repo path : String)
  | invokeAgent (prompt repo : String) (agent : Option String)
  | runTests (repo : String) (command : Option String)
  | moveCard (cardId listId : String)
  | addComment (cardId text : String)
  | addLabel (cardId boardId label : String)
  | removeLabel (cardId boardId label : String)
  deriving Repr, DecidableEq

/-- Options accepted by `fixBug` (its `opts` parameter; the `gitOps` and
`testRunner` injections live in `Env`). -/
structure FixOpts where
  dryRun : Bool := false
  agent : Option String := none
  pr : Bool := false
  testCommand : Option String := none

/-- JavaScript `String.prototype.slice(0, n)`. -/
def strSlice (s : String) (n : Nat) : String := String.mk (s.data.take n)

/-- Comment posted when tests fail after the fix (src/core.ts 313-316). -/
def testFailCommentText (output summary : String) : String :=
  "🤖 Auto-fix attempted but tests failed:\n\n```\n" ++ strSlice output 2000 ++
    "\n```\n\nAgent output:\n" ++ strSlice summary 1000

/-- Comment posted from the failure handler (src/core.ts 379-382). -/
def failureCommentText (errMsg : String) : String :=
  "🤖 Auto-fix failed:\n\n**Error:** " ++ errMsg ++
    "\n\n**Attempted:** Invoked coding agent with prompt based on card description and comments." ++
    "\n\n**Suggestion:** Review the error above and fix manually. Check if the issue is environmental or requires architectural changes."

/-- Comment posted on success (src/core.ts 358-361): the summary, then a
diff section if a non-empty diff was captured, then a PR link if one was
created, joined by newlines. -/
def successCommentText (summary : String) (diffSummary prUrl : Option String) : String :=
  let commentParts := ["🤖 Auto-fixed by trello-autopilot:\n\n" ++ summary]
  let commentParts := if truthyS diffSummary then
    commentParts ++ ["\n📊 Changes:\n```\n" ++ diffSummary.getD "" ++ "\n```"] else commentParts
  let commentParts := if truthyS prUrl then
    commentParts ++ ["\n🔗 PR: " ++ prUrl.getD ""] else commentParts
  joinSep "\n" commentParts

/-- The `catch` block of `fixBug` (src/core.ts 375-398): best-effort
`needs-human` label and failure comment (the comment is skipped when the
label attach itself throws), then a failure result that carries the
`branch`, `diffSummary` and `blameInfo` captured so far — and only those. -/
def fixBugCatch (env : Env) (bug : BugInfo) (boardId errMsg : String)
    (branch diffSummary blameInfo : Option String) : FixResult × List Call :=
  let calls := [Call.addLabel bug.card.id boardId "needs-human"]
  let calls :=
    match env.addLabel bug.card.id boardId "needs-human" with
    | .error _ => calls
    | .ok _ => calls ++ [Call.addComment bug.card.id (failureCommentText errMsg)]
  ({ cardId := bug.card.id
     cardName := bug.card.name
     success := false
     summary := ""
     error := some errMsg
     branch := branch
     diffSummary := diffSummary
     blameInfo := blameInfo
     durationMs := some 0 }, calls)

/-- Step 6 of `fixBug` (src/core.ts 331-346): when a branch was recorded,
commit and push, then — only in PR mode — create a pull request; any
failure is swallowed, yielding no `prUrl`.  Returns the recorded PR url
(if any) and this step's calls. -/
def commitStep (env : Env) (bug : BugInfo) (repo branchName summary : String)
    (pr : Bool) (branch : Option String) : Option String × List Call :=
  if truthyS branch then
    let message := "fix: " ++ bug.card.name ++ " (card " ++ bug.card.id ++ ")"
    match env.commitAndPush repo message branchName with
    | .error _ => (none, [Call.commitAndPush repo message branchName])
    | .ok _ =>
      if pr then
        let title := "fix: " ++ bug.card.name
        let body := "Auto-fix for Trello card: " ++ bug.card.url ++ "\n\n" ++
          strSlice summary 2000
        match env.createPR repo branchName title body with
        | .ok u => (some u, [Call.commitAndPush repo message branchName,
            Call.createPR repo branchName title body])
        | .error _ => (none, [Call.commitAndPush repo message branchName,
            Call.createPR repo branchName title body])
      else (none, [Call.commitAndPush repo message branchName])
  else (none, [])

/-- Step 7 of `fixBug` (src/core.ts 348-354): best-effort removal of both
failure labels; a throw from the first removal skips the second. -/
def removeLabelsStep (env : Env) (cardId boardId : String) : List Call :=
  match env.removeLabel cardId boardId "fix-failed" with
  | .error _ => [Call.removeLabel cardId boardId "fix-failed"]
  | .ok _ => [Call.removeLabel cardId boardId "fix-failed",
      Call.removeLabel cardId boardId "needs-human"]

/-- Per-bug orchestrator (`fixBug` in src/core.ts), returning the
`FixResult` together with the ordered trace of external calls issued.
The step numbering in the body matches the source's comments. -/
def fixBug (env : Env) (bug : BugInfo) (doneListId boardId repo : String)
    (opts : FixOpts) : FixResult × List Call :=
  let prompt := buildPrompt bug
  if opts.dryRun then
    ({ cardId := bug.card.id
       cardName := bug.card.name
       success := true
       summary := "[dry-run] Would fix: " ++ bug.card.name
       durationMs := some 0 }, [])
  else
    let branchName := "fix/card-" ++ bug.card.id
    -- 1. Create git branch (failure swallowed)
    let calls := [Call.createBranch repo branchName]
    let branch : Option String :=
      match env.createBranch repo branchName with
      | .ok _ => some branchName
      | .error _ => none
    -- 2. Git blame analysis (failure swallowed)
    let calls := calls ++ [Call.blame repo "."]
    let blameInfo : Option String :=
      match env.blame repo "." with
      | .ok s => some s
      | .error _ => none
    -- 3. Invoke coding agent (a throw reaches the catch block)
    let calls := calls ++ [Call.invokeAgent prompt repo opts.agent]
    match env.invokeAgent prompt repo opts.agent with
    | .error msg =>
      let caught := fixBugCatch env bug boardId msg branch none blameInfo
      (caught.1, calls ++ caught.2)
    | .ok summary =>
      -- 4. Get git diff (failure swallowed)
      let calls := calls ++ [Call.getDiff repo]
      let diffSummary : Option String :=
        match env.getDiff repo with
        | .ok s => some s
        | .error _ => none
      -- 5. Run tests
      let calls := calls ++ [Call.runTests repo opts.testCommand]
      let testResult := env.runTests repo opts.testCommand
      let testOutput := testResult.2
      if !testResult.1 then
        -- Test failed: label and comment (either may throw), don't move card
        let calls := calls ++ [Call.addLabel bug.card.id boardId "fix-failed"]
        match env.addLabel bug.card.id boardId "fix-failed" with
        | .error msg =>
          let caught := fixBugCatch env bug boardId msg branch diffSummary blameInfo
          (caught.1, calls ++ caught.2)
        | .ok _ =>
          let text := testFailCommentText testOutput summary
          let calls := calls ++ [Call.addComment bug.card.id text]
          match env.addComment bug.card.id text with
          | .error msg =>
            let caught := fixBugCatch env bug boardId msg branch diffSummary blameInfo
            (caught.1, calls ++ caught.2)
          | .ok _ =>
            ({ cardId := bug.card.id
               cardName := bug.card.name
               success := false
               summary := summary
               error := some "Tests failed after fix"
               testOutput := some testOutput
               branch := branch
               diffSummary := diffSummary
               blameInfo := blameInfo
               durationMs := some 0 }, calls)
      else
        -- 6. Commit, push, optionally create PR (failures swallowed)
        let prStep := commitStep env bug repo branchName summary opts.pr branch
        let prUrl := prStep.1
        let calls := calls ++ prStep.2
        -- 7. Remove failure labels (failures swallowed)
        let calls := calls ++ removeLabelsStep env bug.card.id boardId
        -- 8. Move card and add comment (a throw reaches the catch block)
        let calls := calls ++ [Call.moveCard bug.card.id doneListId]
        match env.moveCard bug.card.id doneListId with
        | .error msg =>
          let caught := fixBugCatch env bug boardId msg branch diffSummary blameInfo
          (caught.1, calls ++ caught.2)
        | .ok _ =>
          let text := successCommentText summary diffSummary prUrl
          let calls := calls ++ [Call.addComment bug.card.id text]
          match env.addComment bug.card.id text with
          | .error msg =>
            let caught := fixBugCatch env bug boardId msg branch diffSummary blameInfo
            (caught.1, calls ++ caught.2)
          | .ok _ =>
            ({ cardId := bug.card.id
               cardName := bug.card.name
               success := true
               summary := summary
               branch := branch
               diffSummary := diffSummary
               prUrl := prUrl
               testOutput := some testOutput
               blameInfo := blameInfo
               durationMs := some 0 }, calls)

/-! ## Run pipeline (src/core.ts lines 429-487)

The board/list lookups and `scanBugs` are external; the pipeline is
modelled from the point where the scanned bug list is in hand, with the
resolved board and done-list identifiers as parameters.  Webhook delivery
and console printing have no effect on the report and are not modelled. -/

/-- Option bundle for a run (`AutopilotOpts` in src/core.ts).  Numeric
and string options are `Option`-valued to model absent flags. -/
structure AutopilotOpts where
  board : String
  list : String
  done : String
  repo : String
  dryRun : Bool := false
  json : Bool := false
  agent : Option String := none
  limit : Option Int := none
  label : Option String := none
  pr : Bool := false
  retry : Bool := false
  webhook : Option String := none
  testCommand : Option String := none

/-- The selection-and-loop body of `run` (src/core.ts 440-479): retry
filter, label filter, priority sort, limit — each guarded by JavaScript
truthiness of its option — then `fixBug` over each selected bug in order,
folded by `generateReport`. -/
def runPipeline (env : Env) (boardId doneListId : String)
    (scanned : List BugInfo) (opts : AutopilotOpts) : Report :=
  let bugs := scanned
  let bugs := if opts.retry then filterByRetry bugs else bugs
  let bugs := if truthyS opts.label then filterByLabel bugs (opts.label.getD "") else bugs
  let bugs := sortByPriority bugs
  let bugs :=
    match opts.limit with
    | some n => if 0 < n then bugs.take n.toNat else bugs
    | none => bugs
  let results := bugs.map (fun bug =>
    (fixBug env bug doneListId boardId opts.repo
      { dryRun := opts.dryRun, agent := opts.agent, pr := opts.pr,
        testCommand := opts.testCommand }).1)
  generateReport results 0 0

/-! ## Specification-side definitions

These definitions follow the wording of the specification, not the
source; the theorems below compare them with the source-derived
definitions above. -/

/-- Priority rank of a single label name as worded in the specification:
`critical` = 0, `high` = 1, `medium` = 2, `low` = 3, anything else = 4,
compared case-insensitively. -/
def labelRank (name : String) : Nat :=
  if name.toLower = "critical" then 0
  else if name.toLower = "high" then 1
  else if name.toLower = "medium" then 2
  else if name.toLower = "low" then 3
  else 4

/-- Retry-set filter step of the selection pipeline as worded in the
specification: applied only when retry mode is set. -/
def applyRetry (retry : Bool) (bugs : List BugInfo) : List BugInfo :=
  if retry then filterByRetry bugs else bugs

/-- Label filter step as worded in the specification: applied only when a
(non-empty) label is given. -/
def applyLabel (label : Option String) (bugs : List BugInfo) : List BugInfo :=
  match label with
  | none => bugs
  | some l => if l = "" then bugs else filterByLabel bugs l

/-- Truncation step as worded in the specification: applied only when a
positive limit is given. -/
def applyLimit (limit : Option Int) (bugs : List BugInfo) : List BugInfo :=
  match limit with
  | none => bugs
  | some n => if 0 < n then bugs.take n.toNat else bugs

/-- Prompt text as worded in the specification: a title line, then a
description block only when the description is non-empty, then a labels
line only when labels exist, then a comments block listing
`author: text` for every comment in original order; omitted sections
contribute nothing. -/
def promptSpec (bug : BugInfo) : String :=
  "Fix this bug: " ++ bug.card.name ++
    (if bug.card.desc = "" then "" else "\n\nDescription:\n" ++ bug.card.desc) ++
    (if bug.card.labels.length = 0 then "" else
      "\n\nLabels: " ++ joinSep ", " (bug.card.labels.map (fun l => l.name))) ++
    (if bug.comments.length = 0 then "" else
      "\n\nComments:" ++ String.join
        (bug.comments.map (fun c => "\n- " ++ c.authorFullName ++ ": " ++ c.text)))

/-! ## Concrete sample data for witnesses and counterexamples -/

/-- An environment in which every external operation succeeds with a
fixed benign outcome. -/
def okEnv : Env where
  createBranch := fun _ _ => .ok ()
  getDiff := fun _ => .ok "1 file changed"
  commitAndPush := fun _ _ _ => .ok ()
  createPR := fun _ _ _ _ => .ok "https://example.com/pr/1"
  blame := fun _ _ => .ok "abc123 (Alice) line"
  invokeAgent := fun _ _ _ => .ok "Patched the bug"
  runTests := fun _ _ => (true, "All tests passed")
  moveCard := fun _ _ => .ok ()
  addComment := fun _ _ => .ok ()
  addLabel := fun _ _ _ => .ok ()
  removeLabel := fun _ _ _ => .ok ()

/-- A sample bug with one critical label and one comment. -/
def sampleBug : BugInfo where
  card :=
    { id := "c1", name := "Login crash", desc := "App crashes on login",
      idList := "l1",
      labels := [{ id := "lb1", name := "critical", color := "red" }],
      url := "https://trello.com/c/c1" }
  comments := [{ id := "a1", text := "Happens on iOS only",
                 authorFullName := "Alice", date := "2026-01-01" }]

/-- A sample successful fix result. -/
def sampleOk : FixResult :=
  { cardId := "c1", cardName := "Bug 1", success := true, summary := "done" }

/-- A sample skipped (non-success) fix result. -/
def sampleSkipped : FixResult :=
  { cardId := "c2", cardName := "Bug 2", success := false, summary := "",
    skipped := some true, skipReason := some "filtered" }

/-- A fix result marked both successful and skipped, which `fixBug` never
produces but the `FixResult` shape admits. -/
def sampleBothFlags : FixResult :=
  { cardId := "c1", cardName := "Bug 1", success := true, summary := "",
    skipped := some true }

/-- A second sample bug, also labelled `critical`, sharing the rank of
`sampleBug`. -/
def sampleBug2 : BugInfo where
  card :=
    { id := "c2", name := "Save crash", desc := "",
      idList := "l1",
      labels := [{ id := "lb2", name := "Critical", color := "red" }],
      url := "https://trello.com/c/c2" }
  comments := []

/-- Two bugs without any label (priority rank 4). -/
def plainBug1 : BugInfo where
  card := { id := "p1", name := "Mystery crash", desc := "", idList := "l1",
            labels := [], url := "https://trello.com/c/p1" }
  comments := []

/-- Another bug without any label (priority rank 4). -/
def plainBug2 : BugInfo where
  card := { id := "p2", name := "Slow load", desc := "", idList := "l1",
            labels := [], url := "https://trello.com/c/p2" }
  comments := []

/-- Like `okEnv` but every board comment is rejected by the gateway. -/
def envCommentFails : Env :=
  { okEnv with addComment := fun _ _ => .error "comment rejected" }

/-- Like `okEnv` but the test run reports a failure. -/
def envTestsFail : Env :=
  { okEnv with runTests := fun _ _ => (false, "FAIL: test_login") }

/-- Like `okEnv` but the test run fails and board comments are rejected. -/
def envTestsFailCommentFails : Env :=
  { okEnv with runTests := fun _ _ => (false, "FAIL: test_login"),
               addComment := fun _ _ => .error "comment rejected" }

/-- Like `okEnv` but the card move is rejected by the gateway. -/
def envMoveFails : Env :=
  { okEnv with moveCard := fun _ _ => .error "move rejected" }

/-! ## Helper lemmas -/

theorem string_foldl_append (xs : List String) (acc : String) :
    xs.foldl (fun r s => r ++ s) acc = acc ++ String.join xs := by
  induction xs generalizing acc with
  | nil =>
    show acc = acc ++ String.join []
    rw [show String.join ([] : List String) = "" from rfl, String.append_empty]
  | cons x xs ih =>
    show xs.foldl (fun r s => r ++ s) (acc ++ x) = acc ++ String.join (x :: xs)
    rw [ih]
    rw [show String.join (x :: xs) = xs.foldl (fun r s => r ++ s) ("" ++ x) from rfl]
    rw [ih ("" ++ x), String.empty_append, String.append_assoc]

theorem string_join_cons (x : String) (xs : List String) :
    String.join (x :: xs) = x ++ String.join xs := by
  rw [show String.join (x :: xs) = xs.foldl (fun r s => r ++ s) ("" ++ x) from rfl]
  rw [string_foldl_append, String.empty_append]

theorem string_join_append (xs ys : List String) :
    String.join (xs ++ ys) = String.join xs ++ String.join ys := by
  induction xs with
  | nil =>
    rw [List.nil_append, show String.join ([] : List String) = "" from rfl,
      String.empty_append]
  | cons x xs ih =>
    rw [List.cons_append, string_join_cons, string_join_cons, ih, String.append_assoc]

theorem joinSep_cons (sep p : String) (ps : List String) :
    joinSep sep (p :: ps) = p ++ String.join (ps.map (fun x => sep ++ x)) := by
  suffices h : ∀ (ps : List String) (acc : String),
      ps.foldl (fun a x => a ++ sep ++ x) acc =
        acc ++ String.join (ps.map (fun x => sep ++ x)) by
    simpa [joinSep] using h ps p
  intro ps
  induction ps with
  | nil =>
    intro acc
    rw [List.foldl_nil, List.map_nil,
      show String.join ([] : List String) = "" from rfl, String.append_empty]
  | cons x xs ih =>
    intro acc
    rw [List.foldl_cons, ih, List.map_cons, string_join_cons, String.append_assoc,
      String.append_assoc, String.append_assoc]

theorem string_join_nil : String.join ([] : List String) = "" := rfl

theorem merge_desc (s : String) :
    "\n" ++ ("\nDescription:\n" ++ s) = "\n\nDescription:\n" ++ s := by
  rw [← String.append_assoc]; rfl

theorem merge_labels (s : String) :
    "\n" ++ ("\nLabels: " ++ s) = "\n\nLabels: " ++ s := by
  rw [← String.append_assoc]; rfl

theorem merge_comments (s : String) :
    "\n" ++ ("\nComments:" ++ s) = "\n\nComments:" ++ s := by
  rw [← String.append_assoc]; rfl

theorem comment_map_shift :
    ((fun x => "\n" ++ x) ∘ fun c : TrelloComment =>
      "- " ++ c.authorFullName ++ ": " ++ c.text) =
      (fun c : TrelloComment => "\n- " ++ c.authorFullName ++ ": " ++ c.text) := by
  funext c
  simp only [Function.comp_apply]
  simp only [← String.append_assoc]
  rfl

theorem counts_partition (results : List FixResult)
    (h : ∀ r ∈ results, truthyB r.skipped → r.success = false) :
    (results.filter (fun r => r.success)).length +
      (results.filter (fun r => !r.success && !truthyB r.skipped)).length +
      (results.filter (fun r => truthyB r.skipped)).length = results.length := by
  induction results with
  | nil => rfl
  | cons r rs ih =>
    have hr := h r (List.mem_cons_self r rs)
    have ih' := ih (fun x hx hsk => h x (List.mem_cons_of_mem r hx) hsk)
    cases hs : r.success with
    | true =>
      cases hk : truthyB r.skipped with
      | true =>
        have hcontra := hr hk
        rw [hs] at hcontra
        exact absurd hcontra (by simp)
      | false => simp [List.filter_cons, hs, hk]; omega
    | false =>
      cases hk : truthyB r.skipped with
      | true => simp [List.filter_cons, hs, hk]; omega
      | false => simp [List.filter_cons, hs, hk]; omega

/-! ## Claim theorems -/

/-- C1 (counterexample): the claimed invariant
`fixed + failed + skipped = total` fails for `generateReport` on a
sequence containing a result with both `success = true` and
`skipped = true`: that result is counted both as fixed and as skipped,
so the sum is 2 while the total is 1. -/
theorem generateReport_both_flags_counterexample :
    ¬ ((generateReport [sampleBothFlags] 0 0).fixed +
        (generateReport [sampleBothFlags] 0 0).failed +
        (generateReport [sampleBothFlags] 0 0).skipped =
        (generateReport [sampleBothFlags] 0 0).total) := by
  decide

/-- C1 (amended): for every finite sequence of `FixResult` values in which
no result has both `success = true` and `skipped` set, the report
returned by `generateReport` satisfies `fixed + failed + skipped = total`;
for the empty sequence all four counts are zero. -/
theorem generateReport_counts_sum (results : List FixResult) (startTime now : Nat)
    (h : ∀ r ∈ results, truthyB r.skipped → r.success = false) :
    ((generateReport results startTime now).fixed +
        (generateReport results startTime now).failed +
        (generateReport results startTime now).skipped =
        (generateReport results startTime now).total) ∧
      (generateReport [] startTime now).total = 0 ∧
      (generateReport [] startTime now).fixed = 0 ∧
      (generateReport [] startTime now).failed = 0 ∧
      (generateReport [] startTime now).skipped = 0 := by
  exact ⟨counts_partition results h, rfl, rfl, rfl, rfl⟩

/-- Witness for `generateReport_counts_sum` at a concrete two-result
sequence (one success, one skipped failure). -/
theorem generateReport_counts_sum_witness :
    (∀ r ∈ [sampleOk, sampleSkipped], truthyB r.skipped → r.success = false) ∧
    (((generateReport [sampleOk, sampleSkipped] 0 5).fixed +
        (generateReport [sampleOk, sampleSkipped] 0 5).failed +
        (generateReport [sampleOk, sampleSkipped] 0 5).skipped =
        (generateReport [sampleOk, sampleSkipped] 0 5).total) ∧
      (generateReport [] 0 5).total = 0 ∧
      (generateReport [] 0 5).fixed = 0 ∧
      (generateReport [] 0 5).failed = 0 ∧
      (generateReport [] 0 5).skipped = 0) :=
  ⟨by decide, generateReport_counts_sum [sampleOk, sampleSkipped] 0 5 (by decide)⟩

/-- C8: `filterByLabel` returns exactly the sub-list of bugs whose label
set contains the given label under case-insensitive comparison (membership
characterisation plus order-preserving sub-list), and it is idempotent. -/
theorem filterByLabel_exact_idempotent (bugs : List BugInfo) (label : String) :
    (∀ b, b ∈ filterByLabel bugs label ↔
        b ∈ bugs ∧ ∃ l ∈ b.card.labels, l.name.toLower = label.toLower) ∧
    (filterByLabel bugs label).Sublist bugs ∧
    filterByLabel (filterByLabel bugs label) label = filterByLabel bugs label := by
  refine ⟨fun b => ?_, List.filter_sublist bugs, ?_⟩
  · simp [filterByLabel, List.mem_filter, List.any_eq_true, beq_iff_eq]
  · simp only [filterByLabel]
    rw [List.filter_filter]
    exact List.filter_congr (fun b _ => Bool.and_self _)

/-- C9: `buildPrompt` is a pure function of the bug record and produces,
in order, the title line, a description block only when the description
is non-empty, a labels line only when labels exist, and a comments block
listing `author: text` for every comment in original order, with omitted
sections contributing nothing (in particular no empty header lines) —
stated as equality with the specification-side rendering `promptSpec`. -/
theorem buildPrompt_sections (bug : BugInfo) : buildPrompt bug = promptSpec bug := by
  unfold buildPrompt promptSpec
  by_cases hd : bug.card.desc = "" <;> by_cases hl : bug.card.labels.length = 0 <;>
    by_cases hc : bug.comments.length = 0 <;>
      simp only [hd, hl, hc, if_true, if_false, eq_self_iff_true, if_pos, if_neg,
        not_false_iff, List.cons_append, List.nil_append, List.singleton_append,
        List.append_nil] <;>
      rw [joinSep_cons] <;>
      simp only [List.map_cons, List.map_nil, List.map_map, string_join_cons,
        string_join_append, string_join_nil, comment_map_shift,
        String.append_empty] <;>
      simp only [String.append_assoc, merge_desc, merge_labels, merge_comments]

/-- C10: the three selection transformations are pure — `sortByPriority`
returns a permutation of its input (same length, same elements) and
`filterByLabel` / `filterByRetry` return order-preserving sub-sequences;
none of them can mutate the input, which the embedding renders as their
results being functions of the unchanged input list. -/
theorem selection_policy_frame (bugs : List BugInfo) (label : String) :
    List.Perm (sortByPriority bugs) bugs ∧
    (filterByLabel bugs label).Sublist bugs ∧
    (filterByRetry bugs).Sublist bugs := by
  refine ⟨?_, List.filter_sublist bugs, List.filter_sublist bugs⟩
  exact List.mergeSort_perm bugs _

/-- C4: the run pipeline applies the selection transformations in the
fixed order — retry-set filter (only in retry mode), then label filter
(only when a non-empty label is given), then priority sort, then
truncation to the first N (only for a positive limit) — so the processed
results are exactly `fixBug` mapped over
`applyLimit (sortByPriority (applyLabel (applyRetry scanned)))`; the
processed set is an initial segment of the sorted filtered list
(truncation happens after sorting), and truncation by a positive limit
keeps `min limit eligible` bugs (the limit counts only eligible cards). -/
theorem runPipeline_selection_order (env : Env) (boardId doneListId : String)
    (scanned : List BugInfo) (opts : AutopilotOpts) :
    ((runPipeline env boardId doneListId scanned opts).results =
      (applyLimit opts.limit (sortByPriority (applyLabel opts.label
        (applyRetry opts.retry scanned)))).map (fun bug =>
        (fixBug env bug doneListId boardId opts.repo
          { dryRun := opts.dryRun, agent := opts.agent, pr := opts.pr,
            testCommand := opts.testCommand }).1)) ∧
    (∃ rest, applyLimit opts.limit (sortByPriority (applyLabel opts.label
        (applyRetry opts.retry scanned))) ++ rest =
      sortByPriority (applyLabel opts.label (applyRetry opts.retry scanned))) ∧
    (∀ (n : Int) (bugs : List BugInfo),
      (applyLimit (some n) bugs).length =
        if 0 < n then min n.toNat bugs.length else bugs.length) := by
  refine ⟨?_, ?_, ?_⟩
  · simp only [runPipeline, generateReport]
    cases hL : opts.label with
    | none =>
      cases hn : opts.limit <;>
        simp [applyLabel, applyRetry, applyLimit, truthyS]
    | some l =>
      cases hn : opts.limit <;> by_cases hl : l = "" <;>
        simp [applyLabel, applyRetry, applyLimit, truthyS, hl]
  · cases hn : opts.limit with
    | none => exact ⟨[], List.append_nil _⟩
    | some n =>
      by_cases h : 0 < n
      · exact ⟨(sortByPriority (applyLabel opts.label
          (applyRetry opts.retry scanned))).drop n.toNat,
          by simp [applyLimit, h, List.take_append_drop]⟩
      · exact ⟨[], by simp [applyLimit, h]⟩
  · intro n bugs
    by_cases h : 0 < n <;> simp [applyLimit, h, List.length_take]

/-- C7: with `dryRun` set, `fixBug` returns a successful outcome whose
summary is the preview marker, and the trace of external calls is empty —
no agent, git, test, or board-mutation operation is invoked. -/
theorem fixBug_dryRun_no_calls (env : Env) (bug : BugInfo)
    (doneListId boardId repo : String) (opts : FixOpts)
    (h : opts.dryRun = true) :
    fixBug env bug doneListId boardId repo opts =
      ({ cardId := bug.card.id, cardName := bug.card.name, success := true,
         summary := "[dry-run] Would fix: " ++ bug.card.name,
         durationMs := some 0 }, []) := by
  unfold fixBug
  rw [h]
  rfl

/-- Witness for `fixBug_dryRun_no_calls` at a concrete environment and
bug. -/
theorem fixBug_dryRun_no_calls_witness :
    ({ dryRun := true } : FixOpts).dryRun = true ∧
    fixBug okEnv sampleBug "l2" "b1" "/tmp" { dryRun := true } =
      ({ cardId := sampleBug.card.id, cardName := sampleBug.card.name,
         success := true,
         summary := "[dry-run] Would fix: " ++ sampleBug.card.name,
         durationMs := some 0 }, []) :=
  ⟨rfl, fixBug_dryRun_no_calls okEnv sampleBug "l2" "b1" "/tmp"
    { dryRun := true } rfl⟩

theorem foldr_min_le_init (l : List Nat) (b : Nat) : l.foldr min b ≤ b := by
  induction l with
  | nil => exact Nat.le_refl b
  | cons x xs ih => exact Nat.le_trans (Nat.min_le_right x _) ih

theorem foldr_min_le_mem (l : List Nat) (b a : Nat) (h : a ∈ l) :
    l.foldr min b ≤ a := by
  induction l with
  | nil => cases h
  | cons x xs ih =>
    rcases List.mem_cons.mp h with rfl | h'
    · exact Nat.min_le_left a _
    · exact Nat.le_trans (Nat.min_le_right x _) (ih h')

theorem foldr_min_eq_init_or_mem (l : List Nat) (b : Nat) :
    l.foldr min b = b ∨ l.foldr min b ∈ l := by
  induction l with
  | nil => exact Or.inl rfl
  | cons x xs ih =>
    rcases Nat.le_total x (xs.foldr min b) with h | h
    · right
      rw [List.foldr_cons, Nat.min_eq_left h]
      exact List.mem_cons_self x xs
    · rw [List.foldr_cons, Nat.min_eq_right h]
      rcases ih with h' | h'
      · exact Or.inl h'
      · exact Or.inr (List.mem_cons_of_mem x h')

theorem getPriority_cases (card : TrelloCard) :
    getPriority card =
      if ∃ l ∈ card.labels, l.name.toLower = "critical" then 0
      else if ∃ l ∈ card.labels, l.name.toLower = "high" then 1
      else if ∃ l ∈ card.labels, l.name.toLower = "medium" then 2
      else if ∃ l ∈ card.labels, l.name.toLower = "low" then 3
      else 4 := by
  unfold getPriority PRIORITY_ORDER
  by_cases h0 : ∃ l ∈ card.labels, l.name.toLower = "critical" <;>
  by_cases h1 : ∃ l ∈ card.labels, l.name.toLower = "high" <;>
  by_cases h2 : ∃ l ∈ card.labels, l.name.toLower = "medium" <;>
  by_cases h3 : ∃ l ∈ card.labels, l.name.toLower = "low" <;>
    simp [List.findIdx?_cons, List.findIdx?_succ, h0, h1, h2, h3]

theorem getPriority_le_four (card : TrelloCard) : getPriority card ≤ 4 := by
  rw [getPriority_cases]
  repeat' split
  all_goals omega

theorem gp_of_critical (card : TrelloCard)
    (h : ∃ l ∈ card.labels, l.name.toLower = "critical") : getPriority card = 0 := by
  rw [getPriority_cases, if_pos h]

theorem gp_le_one (card : TrelloCard)
    (h : ∃ l ∈ card.labels, l.name.toLower = "high") : getPriority card ≤ 1 := by
  rw [getPriority_cases]
  by_cases h0 : ∃ l ∈ card.labels, l.name.toLower = "critical"
  · rw [if_pos h0]; omega
  · rw [if_neg h0, if_pos h]

theorem gp_le_two (card : TrelloCard)
    (h : ∃ l ∈ card.labels, l.name.toLower = "medium") : getPriority card ≤ 2 := by
  rw [getPriority_cases]
  by_cases h0 : ∃ l ∈ card.labels, l.name.toLower = "critical"
  · rw [if_pos h0]; omega
  · rw [if_neg h0]
    by_cases h1 : ∃ l ∈ card.labels, l.name.toLower = "high"
    · rw [if_pos h1]; omega
    · rw [if_neg h1, if_pos h]

theorem gp_le_three (card : TrelloCard)
    (h : ∃ l ∈ card.labels, l.name.toLower = "low") : getPriority card ≤ 3 := by
  rw [getPriority_cases]
  by_cases h0 : ∃ l ∈ card.labels, l.name.toLower = "critical"
  · rw [if_pos h0]; omega
  · rw [if_neg h0]
    by_cases h1 : ∃ l ∈ card.labels, l.name.toLower = "high"
    · rw [if_pos h1]; omega
    · rw [if_neg h1]
      by_cases h2 : ∃ l ∈ card.labels, l.name.toLower = "medium"
      · rw [if_pos h2]; omega
      · rw [if_neg h2, if_pos h]

theorem getPriority_le_labelRank (card : TrelloCard) (l : TrelloLabel)
    (hl : l ∈ card.labels) : getPriority card ≤ labelRank l.name := by
  unfold labelRank
  by_cases e0 : l.name.toLower = "critical"
  · rw [if_pos e0, gp_of_critical card ⟨l, hl, e0⟩]
  · rw [if_neg e0]
    by_cases e1 : l.name.toLower = "high"
    · rw [if_pos e1]; exact gp_le_one card ⟨l, hl, e1⟩
    · rw [if_neg e1]
      by_cases e2 : l.name.toLower = "medium"
      · rw [if_pos e2]; exact gp_le_two card ⟨l, hl, e2⟩
      · rw [if_neg e2]
        by_cases e3 : l.name.toLower = "low"
        · rw [if_pos e3]; exact gp_le_three card ⟨l, hl, e3⟩
        · rw [if_neg e3]; exact getPriority_le_four card

theorem getPriority_attained (card : TrelloCard) :
    getPriority card = 4 ∨
      ∃ l ∈ card.labels, labelRank l.name = getPriority card := by
  rw [getPriority_cases]
  by_cases h0 : ∃ l ∈ card.labels, l.name.toLower = "critical"
  · rw [if_pos h0]
    obtain ⟨l, hl, e⟩ := h0
    exact Or.inr ⟨l, hl, by unfold labelRank; rw [if_pos e]⟩
  · rw [if_neg h0]
    by_cases h1 : ∃ l ∈ card.labels, l.name.toLower = "high"
    · rw [if_pos h1]
      obtain ⟨l, hl, e⟩ := h1
      refine Or.inr ⟨l, hl, ?_⟩
      unfold labelRank
      rw [if_neg (by rw [e]; decide), if_pos e]
    · rw [if_neg h1]
      by_cases h2 : ∃ l ∈ card.labels, l.name.toLower = "medium"
      · rw [if_pos h2]
        obtain ⟨l, hl, e⟩ := h2
        refine Or.inr ⟨l, hl, ?_⟩
        unfold labelRank
        rw [if_neg (by rw [e]; decide), if_neg (by rw [e]; decide), if_pos e]
      · rw [if_neg h2]
        by_cases h3 : ∃ l ∈ card.labels, l.name.toLower = "low"
        · rw [if_pos h3]
          obtain ⟨l, hl, e⟩ := h3
          refine Or.inr ⟨l, hl, ?_⟩
          unfold labelRank
          rw [if_neg (by rw [e]; decide), if_neg (by rw [e]; decide),
            if_neg (by rw [e]; decide), if_pos e]
        · rw [if_neg h3]
          exact Or.inl rfl

theorem getPriority_eq_foldr_min (card : TrelloCard) :
    getPriority card = (card.labels.map (fun l => labelRank l.name)).foldr min 4 := by
  apply Nat.le_antisymm
  · rcases foldr_min_eq_init_or_mem (card.labels.map (fun l => labelRank l.name)) 4 with h | h
    · rw [h]; exact getPriority_le_four card
    · obtain ⟨l, hl, heq⟩ := List.mem_map.mp h
      rw [← heq]
      exact getPriority_le_labelRank card l hl
  · rcases getPriority_attained card with h | ⟨l, hl, heq⟩
    · rw [h]; exact foldr_min_le_init _ 4
    · rw [← heq]
      exact foldr_min_le_mem _ 4 _ (List.mem_map.mpr ⟨l, hl, rfl⟩)

theorem priority_trans : ∀ a b c : BugInfo,
    (getPriority a.card ≤ getPriority b.card : Bool) →
    (getPriority b.card ≤ getPriority c.card : Bool) →
    (getPriority a.card ≤ getPriority c.card : Bool) := by
  intro a b c hab hbc
  simp only [decide_eq_true_eq] at *
  omega

theorem priority_total : ∀ a b : BugInfo,
    ((getPriority a.card ≤ getPriority b.card : Bool) ||
      (getPriority b.card ≤ getPriority a.card : Bool)) = true := by
  intro a b
  simp only [Bool.or_eq_true, decide_eq_true_eq]
  omega

/-- C5: `sortByPriority` is a stable ascending sort by priority rank —
`getPriority` equals the minimum of the ranks of the card's labels
(4 when none is recognised, rank compared case-insensitively via
`labelRank`, several labels resolved to the lowest rank), the output is a
permutation of the input, consecutive output ranks are non-decreasing
(so no bug ever sorts after one with a strictly worse rank, and bugs
without a recognised label come after all bugs with one), and any pair
in rank-respecting input order — in particular any equal-rank pair —
keeps its relative order. -/
theorem sortByPriority_stable_by_rank (bugs : List BugInfo) :
    (∀ card : TrelloCard, getPriority card =
        (card.labels.map (fun l => labelRank l.name)).foldr min 4) ∧
    List.Perm (sortByPriority bugs) bugs ∧
    (sortByPriority bugs).Pairwise
      (fun a b => getPriority a.card ≤ getPriority b.card) ∧
    (∀ a b : BugInfo, getPriority a.card ≤ getPriority b.card →
      List.Sublist [a, b] bugs → List.Sublist [a, b] (sortByPriority bugs)) := by
  refine ⟨getPriority_eq_foldr_min, List.mergeSort_perm bugs _, ?_, ?_⟩
  · have hs := List.sorted_mergeSort priority_trans priority_total bugs
    exact hs.imp (fun h => of_decide_eq_true h)
  · intro a b hab hsub
    exact List.pair_sublist_mergeSort priority_trans priority_total
      (decide_eq_true hab) hsub

/-- Witness for `sortByPriority_stable_by_rank`: two equal-rank
(unlabelled) bugs keep their input order in the sorted output. -/
theorem sortByPriority_stable_by_rank_witness :
    getPriority plainBug1.card ≤ getPriority plainBug2.card ∧
    List.Sublist [plainBug1, plainBug2] [plainBug1, plainBug2] ∧
    List.Sublist [plainBug1, plainBug2] (sortByPriority [plainBug1, plainBug2]) :=
  ⟨by decide, List.Sublist.refl _,
    (sortByPriority_stable_by_rank [plainBug1, plainBug2]).2.2.2 plainBug1
      plainBug2 (by decide) (List.Sublist.refl _)⟩

theorem fixBugCatch_result (env : Env) (bug : BugInfo) (boardId errMsg : String)
    (branch diffSummary blameInfo : Option String) :
    (fixBugCatch env bug boardId errMsg branch diffSummary blameInfo).1 =
      { cardId := bug.card.id, cardName := bug.card.name, success := false,
        summary := "", error := some errMsg, branch := branch,
        diffSummary := diffSummary, blameInfo := blameInfo,
        durationMs := some 0 } := by
  unfold fixBugCatch
  cases env.addLabel bug.card.id boardId "needs-human" <;> rfl

theorem fixBugCatch_no_moveCard (env : Env) (bug : BugInfo) (boardId errMsg : String)
    (branch diffSummary blameInfo : Option String) (c l : String) :
    Call.moveCard c l ∉
      (fixBugCatch env bug boardId errMsg branch diffSummary blameInfo).2 := by
  unfold fixBugCatch
  cases env.addLabel bug.card.id boardId "needs-human" <;> simp

/-- C2 (counterexample): with a board gateway whose `addComment` rejects,
`fixBug` reaches the success path, calls `moveCard`, and then the failing
success-comment lands in the catch handler — so the returned result has
`success = false` even though a `moveCard` call was made. -/
theorem fixBug_moveCard_counterexample :
    (fixBug envCommentFails sampleBug "l2" "b1" "/tmp" {}).1.success = false ∧
    Call.moveCard "c1" "l2" ∈ (fixBug envCommentFails sampleBug "l2" "b1" "/tmp" {}).2 := by
  decide

/-- C2 (amended): `fixBug` never sets `skipped`; a `moveCard` call occurs
only in executions where the test verification passed; and whenever
`fixBug` returns `success = false` while the board-finalising operations
(`moveCard` and the card's comments) do not themselves throw, no
`moveCard` call was made during that execution. -/
theorem fixBug_moveCard_gated (env : Env) (bug : BugInfo)
    (doneListId boardId repo : String) (opts : FixOpts)
    (hmv : env.moveCard bug.card.id doneListId = .ok ())
    (hac : ∀ t, env.addComment bug.card.id t = .ok ()) :
    (fixBug env bug doneListId boardId repo opts).1.skipped = none ∧
    (∀ c l, Call.moveCard c l ∈ (fixBug env bug doneListId boardId repo opts).2 →
      (env.runTests repo opts.testCommand).1 = true) ∧
    ((fixBug env bug doneListId boardId repo opts).1.success = false →
      ∀ c l, Call.moveCard c l ∉ (fixBug env bug doneListId boardId repo opts).2) := by
  cases hdry : opts.dryRun with
  | true => simp [fixBug, hdry]
  | false =>
    unfold fixBug
    rw [hdry]
    simp only [Bool.false_eq_true, if_false]
    cases hag : env.invokeAgent (buildPrompt bug) repo opts.agent with
    | error msg =>
      simp [hag, fixBugCatch_result, fixBugCatch_no_moveCard]
    | ok summary =>
      rcases hts : env.runTests repo opts.testCommand with ⟨passed, output⟩
      cases passed with
      | false =>
        cases hal : env.addLabel bug.card.id boardId "fix-failed" with
        | error m =>
          simp [hag, hts, hal, fixBugCatch_result, fixBugCatch_no_moveCard]
        | ok _ =>
          simp [hag, hts, hal, hac]
      | true =>
        simp [hag, hts, hmv, hac]

/-- Witness for `fixBug_moveCard_gated`: tests fail under a benign board
gateway, the result is a failure and the trace holds no `moveCard`. -/
theorem fixBug_moveCard_gated_witness :
    envTestsFail.moveCard sampleBug.card.id "l2" = .ok () ∧
    (∀ t, envTestsFail.addComment sampleBug.card.id t = .ok ()) ∧
    ((fixBug envTestsFail sampleBug "l2" "b1" "/tmp" {}).1.skipped = none ∧
     (∀ c l, Call.moveCard c l ∈ (fixBug envTestsFail sampleBug "l2" "b1" "/tmp" {}).2 →
        (envTestsFail.runTests "/tmp" none).1 = true) ∧
     ((fixBug envTestsFail sampleBug "l2" "b1" "/tmp" {}).1.success = false →
        ∀ c l, Call.moveCard c l ∉ (fixBug envTestsFail sampleBug "l2" "b1" "/tmp" {}).2)) :=
  ⟨rfl, fun _ => rfl,
    fixBug_moveCard_gated envTestsFail sampleBug "l2" "b1" "/tmp" {} rfl (fun _ => rfl)⟩

/-- C3 (counterexample): with a board gateway whose `moveCard` rejects,
the test runner is invoked and its output recorded, yet the caught-
exception outcome omits `testOutput` — a populated field is not preserved
into that terminal outcome. -/
theorem fixBug_fields_dropped_counterexample :
    Call.runTests "/tmp" none ∈ (fixBug envMoveFails sampleBug "l2" "b1" "/tmp" {}).2 ∧
    (envMoveFails.runTests "/tmp" none).2 = "All tests passed" ∧
    (fixBug envMoveFails sampleBug "l2" "b1" "/tmp" {}).1.testOutput = none ∧
    (fixBug envMoveFails sampleBug "l2" "b1" "/tmp" {}).1.success = false := by
  decide

/-- C3 (amended): outside dry-run, `branch` and `blameInfo` are preserved
unchanged into every terminal outcome; once the agent step has succeeded,
`diffSummary` is preserved into every terminal outcome; and when the
board-mutating operations do not throw (so the caught-exception terminal,
which omits `testOutput`/`prUrl`, is only reachable from an agent throw),
`testOutput` is preserved and, when tests pass, `prUrl` carries the
commit/PR step's outcome. -/
theorem fixBug_partial_fields_preserved (env : Env) (bug : BugInfo)
    (doneListId boardId repo : String) (opts : FixOpts)
    (hdry : opts.dryRun = false) :
    ((fixBug env bug doneListId boardId repo opts).1.branch =
      (match env.createBranch repo ("fix/card-" ++ bug.card.id) with
       | .ok _ => some ("fix/card-" ++ bug.card.id)
       | .error _ => none) ∧
     (fixBug env bug doneListId boardId repo opts).1.blameInfo =
      (match env.blame repo "." with
       | .ok s => some s
       | .error _ => none)) ∧
    (∀ s, env.invokeAgent (buildPrompt bug) repo opts.agent = .ok s →
      (fixBug env bug doneListId boardId repo opts).1.diffSummary =
        (match env.getDiff repo with
         | .ok d => some d
         | .error _ => none)) ∧
    ((∀ c b l, env.addLabel c b l = .ok ()) →
     (∀ c t, env.addComment c t = .ok ()) →
     (∀ c l, env.moveCard c l = .ok ()) →
     ∀ s, env.invokeAgent (buildPrompt bug) repo opts.agent = .ok s →
      ((fixBug env bug doneListId boardId repo opts).1.testOutput =
          some (env.runTests repo opts.testCommand).2 ∧
       ((env.runTests repo opts.testCommand).1 = true →
         (fixBug env bug doneListId boardId repo opts).1.prUrl =
           (commitStep env bug repo ("fix/card-" ++ bug.card.id) s opts.pr
             (match env.createBranch repo ("fix/card-" ++ bug.card.id) with
              | .ok _ => some ("fix/card-" ++ bug.card.id)
              | .error _ => none)).1))) := by
  refine ⟨?_, ?_, ?_⟩
  · unfold fixBug
    rw [hdry]
    simp only [Bool.false_eq_true, if_false]
    repeat' split
    all_goals simp [fixBugCatch_result]
  · intro s hs
    unfold fixBug
    rw [hdry]
    simp only [Bool.false_eq_true, if_false, hs]
    repeat' split
    all_goals simp [fixBugCatch_result]
  · intro hal hac hmv s hs
    unfold fixBug
    rw [hdry]
    simp only [Bool.false_eq_true, if_false, hs, hal, hac, hmv]
    repeat' split
    all_goals simp_all

/-- Witness for `fixBug_partial_fields_preserved` in the all-succeeding
environment. -/
theorem fixBug_partial_fields_preserved_witness :
    ({} : FixOpts).dryRun = false ∧
    (((fixBug okEnv sampleBug "l2" "b1" "/tmp" {}).1.branch =
      (match okEnv.createBranch "/tmp" ("fix/card-" ++ sampleBug.card.id) with
       | .ok _ => some ("fix/card-" ++ sampleBug.card.id)
       | .error _ => none) ∧
     (fixBug okEnv sampleBug "l2" "b1" "/tmp" {}).1.blameInfo =
      (match okEnv.blame "/tmp" "." with
       | .ok s => some s
       | .error _ => none)) ∧
    (∀ s, okEnv.invokeAgent (buildPrompt sampleBug) "/tmp" none = .ok s →
      (fixBug okEnv sampleBug "l2" "b1" "/tmp" {}).1.diffSummary =
        (match okEnv.getDiff "/tmp" with
         | .ok d => some d
         | .error _ => none)) ∧
    ((∀ c b l, okEnv.addLabel c b l = .ok ()) →
     (∀ c t, okEnv.addComment c t = .ok ()) →
     (∀ c l, okEnv.moveCard c l = .ok ()) →
     ∀ s, okEnv.invokeAgent (buildPrompt sampleBug) "/tmp" none = .ok s →
      ((fixBug okEnv sampleBug "l2" "b1" "/tmp" {}).1.testOutput =
          some (okEnv.runTests "/tmp" none).2 ∧
       ((okEnv.runTests "/tmp" none).1 = true →
         (fixBug okEnv sampleBug "l2" "b1" "/tmp" {}).1.prUrl =
           (commitStep okEnv sampleBug "/tmp" ("fix/card-" ++ sampleBug.card.id)
             s ({} : FixOpts).pr
             (match okEnv.createBranch "/tmp" ("fix/card-" ++ sampleBug.card.id) with
              | .ok _ => some ("fix/card-" ++ sampleBug.card.id)
              | .error _ => none)).1)))) :=
  ⟨rfl, fixBug_partial_fields_preserved okEnv sampleBug "l2" "b1" "/tmp" {} rfl⟩

/-- C6 (counterexample): when the test runner reports a failure but the
board comment in the test-failure handler is rejected, the execution
requests both failure labels and the returned error text is the comment
rejection, not "Tests failed after fix" — refuting the claim as stated. -/
theorem fixBug_classification_counterexample :
    (envTestsFailCommentFails.runTests "/tmp" none).1 = false ∧
    (fixBug envTestsFailCommentFails sampleBug "l2" "b1" "/tmp" {}).1.error =
      some "comment rejected" ∧
    Call.addLabel "c1" "b1" "fix-failed" ∈
      (fixBug envTestsFailCommentFails sampleBug "l2" "b1" "/tmp" {}).2 ∧
    Call.addLabel "c1" "b1" "needs-human" ∈
      (fixBug envTestsFailCommentFails sampleBug "l2" "b1" "/tmp" {}).2 := by
  decide

/-- C6 (amended): outside dry-run, provided the board-mutating label and
comment operations themselves succeed, the two failure kinds are
classified distinctly: a failing test run yields `success = false` with
error "Tests failed after fix", a `fix-failed` attach and a comment, and
no `needs-human` attach; a throwing agent invocation yields
`success = false` carrying the thrown message, a `needs-human` attach
and a comment, and no `fix-failed` attach. -/
theorem fixBug_failure_classification (env : Env) (bug : BugInfo)
    (doneListId boardId repo : String) (opts : FixOpts)
    (hdry : opts.dryRun = false)
    (hal : ∀ c b l, env.addLabel c b l = .ok ())
    (hac : ∀ c t, env.addComment c t = .ok ()) :
    (∀ s out, env.invokeAgent (buildPrompt bug) repo opts.agent = .ok s →
      env.runTests repo opts.testCommand = (false, out) →
      ((fixBug env bug doneListId boardId repo opts).1.success = false ∧
       (fixBug env bug doneListId boardId repo opts).1.error =
          some "Tests failed after fix" ∧
       Call.addLabel bug.card.id boardId "fix-failed" ∈
          (fixBug env bug doneListId boardId repo opts).2 ∧
       Call.addComment bug.card.id (testFailCommentText out s) ∈
          (fixBug env bug doneListId boardId repo opts).2 ∧
       (∀ c b, Call.addLabel c b "needs-human" ∉
          (fixBug env bug doneListId boardId repo opts).2))) ∧
    (∀ msg, env.invokeAgent (buildPrompt bug) repo opts.agent = .error msg →
      ((fixBug env bug doneListId boardId repo opts).1.success = false ∧
       (fixBug env bug doneListId boardId repo opts).1.error = some msg ∧
       Call.addLabel bug.card.id boardId "needs-human" ∈
          (fixBug env bug doneListId boardId repo opts).2 ∧
       Call.addComment bug.card.id (failureCommentText msg) ∈
          (fixBug env bug doneListId boardId repo opts).2 ∧
       (∀ c b, Call.addLabel c b "fix-failed" ∉
          (fixBug env bug doneListId boardId repo opts).2))) := by
  constructor
  · intro s out h1 h2
    unfold fixBug
    rw [hdry]
    simp [Bool.false_eq_true, if_false, h1, h2, hal, hac,
      show ("needs-human" : String) ≠ "fix-failed" from by decide,
      show ("fix-failed" : String) ≠ "needs-human" from by decide]
  · intro msg h1
    unfold fixBug
    rw [hdry]
    simp [Bool.false_eq_true, if_false, h1, hal, hac, fixBugCatch,
      show ("needs-human" : String) ≠ "fix-failed" from by decide,
      show ("fix-failed" : String) ≠ "needs-human" from by decide]

/-- Witness for `fixBug_failure_classification` in the environment where
tests fail and all board mutations succeed. -/
theorem fixBug_failure_classification_witness :
    ({} : FixOpts).dryRun = false ∧
    (∀ c b l, envTestsFail.addLabel c b l = .ok ()) ∧
    (∀ c t, envTestsFail.addComment c t = .ok ()) ∧
    ((∀ s out, envTestsFail.invokeAgent (buildPrompt sampleBug) "/tmp" none = .ok s →
      envTestsFail.runTests "/tmp" none = (false, out) →
      ((fixBug envTestsFail sampleBug "l2" "b1" "/tmp" {}).1.success = false ∧
       (fixBug envTestsFail sampleBug "l2" "b1" "/tmp" {}).1.error =
          some "Tests failed after fix" ∧
       Call.addLabel sampleBug.card.id "b1" "fix-failed" ∈
          (fixBug envTestsFail sampleBug "l2" "b1" "/tmp" {}).2 ∧
       Call.addComment sampleBug.card.id (testFailCommentText out s) ∈
          (fixBug envTestsFail sampleBug "l2" "b1" "/tmp" {}).2 ∧
       (∀ c b, Call.addLabel c b "needs-human" ∉
          (fixBug envTestsFail sampleBug "l2" "b1" "/tmp" {}).2))) ∧
    (∀ msg, envTestsFail.invokeAgent (buildPrompt sampleBug) "/tmp" none = .error msg →
      ((fixBug envTestsFail sampleBug "l2" "b1" "/tmp" {}).1.success = false ∧
       (fixBug envTestsFail sampleBug "l2" "b1" "/tmp" {}).1.error = some msg ∧
       Call.addLabel sampleBug.card.id "b1" "needs-human" ∈
          (fixBug envTestsFail sampleBug "l2" "b1" "/tmp" {}).2 ∧
       Call.addComment sampleBug.card.id (failureCommentText msg) ∈
          (fixBug envTestsFail sampleBug "l2" "b1" "/tmp" {}).2 ∧
       (∀ c b, Call.addLabel c b "fix-failed" ∉
          (fixBug envTestsFail sampleBug "l2" "b1" "/tmp" {}).2)))) :=
  ⟨rfl, fun _ _ _ => rfl, fun _ _ => rfl,
    fixBug_failure_classification envTestsFail sampleBug "l2" "b1" "/tmp" {}
      rfl (fun _ _ _ => rfl) (fun _ _ => rfl)⟩
